import Mathlib

/-!
Shallow embedding of `io_scene_xray/obj/exp/main.py` (the X-Ray object
exporter) and proofs about the claims of its specification.

The binary writers are modelled at the level of primitive write tokens
(`Datum`): each `putf`/`puts` call of the Python `PackedWriter` appends one
token.  Every token has a fixed byte encoding (little-endian u16/u32, IEEE
f32, string bytes + NUL), so equality of token sequences coincides with
equality of the produced byte streams and `dataSize` below computes the
byte length used in chunk headers.
-/

namespace XRay

/-- One primitive write of the packed writer: `putf('H',·)`, `putf('I',·)`,
one float of `putf('fff',·)`, or `puts`.  Floats are carried as exact
rationals; the exporter only moves them from the scene to the file, so no
rounding happens in the modelled code. -/
inductive Datum where
  | u16 : Nat → Datum
  | u32 : Nat → Datum
  | f32 : Rat → Datum
  | str : String → Datum
deriving DecidableEq

/-- Byte length of one token in the wire encoding (strings are written as
their UTF-8 bytes followed by one NUL terminator). -/
def datumSize : Datum → Nat
  | .u16 _ => 2
  | .u32 _ => 4
  | .f32 _ => 4
  | .str s => s.utf8ByteSize + 1

/-- Byte length of a packed-writer buffer. -/
def dataSize (l : List Datum) : Nat := (l.map datumSize).sum

/-- Model of `putf('H', n)`: a 16-bit unsigned write. -/
def pU16 (n : Nat) : Datum := .u16 (n % 2 ^ 16)

/-- Model of `putf('I', n)`: a 32-bit unsigned write (Blender property values are
always in range, where Python `struct` would raise instead of wrapping). -/
def pU32 (n : Nat) : Datum := .u32 (n % 2 ^ 32)

/-- A chunk of a `ChunkedWriter`: integer id plus payload tokens. -/
structure Chunk where
  cid : Nat
  data : List Datum
deriving DecidableEq

/-- Serialization of a nested `ChunkedWriter` to the parent's payload:
each chunk becomes `u32 id, u32 byte-length, payload`. -/
def serializeChunks (cs : List Chunk) : List Datum :=
  cs.foldr (fun c acc => .u32 c.cid :: .u32 (dataSize c.data) :: (c.data ++ acc)) []

/-- Modelled from the spec: the fixed chunk-id constants of the external
`fmt.Chunks.Object` module (not under `src/`); the spec only requires them
to be fixed and pairwise distinct. -/
def VERSION : Nat := 0x0900
def FLAGS : Nat := 0x0903
def MESHES : Nat := 0x0910
def SURFACES2 : Nat := 0x0907
def BONES1 : Nat := 0x0921
def USERDATA : Nat := 0x0912
def LOD_REF : Nat := 0x0905
def MOTIONS : Nat := 0x0916
def SMOTIONS3 : Nat := 0x0919
def PARTITIONS1 : Nat := 0x0923
def MOTION_REFS : Nat := 0x0917
def TRANSFORM : Nat := 0x0920
def REVISION : Nat := 0x0944

/-- Python errors the exporter can raise. -/
inductive PyErr where
  | attributeError
  | keyError
deriving DecidableEq

/-! ## Python `set()` model

The exporter collects materials and armatures into Python `set()`s.  A
CPython set of Blender objects deduplicates by object identity (`id()`)
and iterates in an order determined by the identity hashes, i.e. by memory
addresses — not by the scene.  We model the set contents as the
insertion-ordered duplicate-free list (`pyInsert`/`pyFold`) and model one
concrete run's iteration order as an arbitrary permutation-valid
enumeration function applied to that list. -/

/-- Insert into a Python set keyed by object identity: no-op when an
element with the same identity is already present. -/
def pyInsert (key : α → Nat) (s : List α) (x : α) : List α :=
  if s.any fun y => key y = key x then s else s ++ [x]

/-- Fold `pyInsert` over a list of additions. -/
def pyFold (key : α → Nat) (s : List α) (l : List α) : List α :=
  l.foldl (pyInsert key) s

/-- A set-iteration order a CPython run can exhibit: any enumeration that
lists exactly the set's elements. -/
def ValidEnum (f : List α → List α) : Prop :=
  ∀ l : List α, (f l).Perm l

/-! ## Scene data model (the read-only snapshot the host hands over) -/

/-- The `xray` extension block of a material (`props/material.py`:
`XRayMaterialProperties`). -/
structure MaterialXRay where
  eshader : String
  cshader : String
  gamemtl : String
  flags : Nat
deriving DecidableEq

/-- A texture datablock; only its name is read by the exporter. -/
structure Texture where
  name : String
deriving DecidableEq

/-- A material texture slot; only `uv_layer` is read. -/
structure TextureSlot where
  uv_layer : String
deriving DecidableEq

/-- A Blender material as read by `export_surfaces`.  `mid` is the Python
object identity; `xray = none` models `hasattr(material, 'xray')` being
false.  `texture_slots` is the slot array (entries may be `None`), read at
`active_texture_index`; a missing entry reads as `None`. -/
structure Material where
  mid : Nat
  name : String
  xray : Option MaterialXRay
  active_texture : Option Texture
  texture_slots : List (Option TextureSlot)
  active_texture_index : Nat
deriving DecidableEq

/-- A skeleton bone.  Blender keeps `data.bones` and `pose.bones` in 1-1
correspondence by name; we merge the two views: `exportable` is the flag
`utils.is_exportable_bone` tests on the data bone, `group` is the pose
bone's `bone_group` (by group identity `gid`, `none` = no group). -/
structure Bone where
  name : String
  exportable : Bool
  group : Option Nat
deriving DecidableEq

/-- A pose bone group (`pose.bone_groups` entry). -/
structure BoneGroup where
  gid : Nat
  name : String
deriving DecidableEq

/-- An armature object: identity, its bones (see `Bone`), and its pose
bone groups. -/
structure Armature where
  aid : Nat
  bones : List Bone
  bone_groups : List BoneGroup
deriving DecidableEq

/-- Modelled from the spec: `utils.is_exportable_bone` (external `utils`
module) — tests the bone's exportability flag. -/
def is_exportable_bone (b : Bone) : Bool := b.exportable

/-- Mesh data of a MESH object.  `materials` is the slot list (`None`
entries possible); `used_material_names` and `encoded` are — modelled from
the spec — the two outputs of the external mesh encoder
`mesh.export_mesh`: the set of material names actually used by faces, and
the mesh's nested chunked writer. -/
structure MeshData where
  materials : List (Option Material)
  used_material_names : List String
  encoded : List Chunk
deriving DecidableEq

/-- An object modifier: its type string and its optional target object
(an armature object for `'ARMATURE'` modifiers). -/
structure Modifier where
  mtype : String
  target : Option Armature
deriving DecidableEq

/-- The revision block stored on an object (`xray.revision`). -/
structure Revision where
  owner : String
  ctime : Nat
deriving DecidableEq

/-- An entry of `xray.motionrefs_collection`. -/
structure MotionRef where
  name : String
deriving DecidableEq

/-- An entry of `xray.motions_collection` (a motion name). -/
structure Motion where
  name : String
deriving DecidableEq

/-- An action from the global `bpy.data.actions` registry. -/
structure Action where
  name : String
deriving DecidableEq

/-- The object-level `xray` extension block read by `export_main`. -/
structure ObjXray where
  flags : Nat
  userdata : String
  lodref : String
  motionrefs : String
  motionrefs_collection : List MotionRef
  motions_collection : List Motion
  revision : Revision
deriving DecidableEq

/-- A 3-vector of exact scalars. -/
structure Vec3 where
  x : Rat
  y : Rat
  z : Rat
deriving DecidableEq

/-- A 4x4 world matrix (row-major fields `mRC`). -/
structure Mat4 where
  m00 : Rat
  m01 : Rat
  m02 : Rat
  m03 : Rat
  m10 : Rat
  m11 : Rat
  m12 : Rat
  m13 : Rat
  m20 : Rat
  m21 : Rat
  m22 : Rat
  m23 : Rat
  m30 : Rat
  m31 : Rat
  m32 : Rat
  m33 : Rat
deriving DecidableEq

/-- Model of `mathutils.Matrix.Identity(4)`. -/
def Mat4.identity : Mat4 :=
  ⟨1, 0, 0, 0, 0, 1, 0, 0, 0, 0, 1, 0, 0, 0, 0, 1⟩

/-- Model of `Matrix.to_translation`: the translation column. -/
def Mat4.to_translation (m : Mat4) : Vec3 := ⟨m.m03, m.m13, m.m23⟩

/-- What an object's `data` is: a mesh, an armature, or something else.
`mesh`/`armature` also fix `bpy_obj.type`. -/
inductive ObjData where
  | mesh : MeshData → ObjData
  | armature : Armature → ObjData
  | other : ObjData

mutual
/-- A Blender object as seen by the walker: helper flag
(`utils.is_helper_object`, modelled from the spec as a stored flag), data,
modifier list, optional `xray` block, world matrix, and children. -/
inductive BpyObj where
  | mk (helper : Bool) (data : ObjData) (modifiers : List Modifier)
      (xray : Option ObjXray) (matrix_world : Mat4) (children : ObjList)

/-- A list of scene objects (mutual with `BpyObj` so the walker can use
structural recursion). -/
inductive ObjList where
  | nil : ObjList
  | cons : BpyObj → ObjList → ObjList
end

/-- Object accessor: the `xray` extension block (`none` models
`hasattr(bpy_obj, 'xray')` being false). -/
def BpyObj.xray : BpyObj → Option ObjXray
  | .mk _ _ _ x _ _ => x

/-- Object accessor: `matrix_world`. -/
def BpyObj.matrix_world : BpyObj → Mat4
  | .mk _ _ _ _ mw _ => mw

/-! ## The scene walker (`export_meshes`, lines 31-87) -/

/-- The mutable collections the `scan_r` closure updates. -/
structure ScanState where
  mesh_writers : List (List Chunk)
  armatures : List Armature
  materials : List Material

/-- The modifier loop of `scan_r` (lines 49-51): add the target of every
`'ARMATURE'` modifier that has one to the armature set. -/
def addModifierArms (arms : List Armature) (mods : List Modifier) : List Armature :=
  mods.foldl
    (fun a md =>
      match md.target with
      | some t => if md.mtype = "ARMATURE" then pyInsert Armature.aid a t else a
      | none => a)
    arms

/-- The material loop of `scan_r` (lines 52-56): skip `None` slots, add
materials whose name is in the used-name set. -/
def addUsedMaterials (mats : List Material) (md : MeshData) : List Material :=
  md.materials.foldl
    (fun acc om =>
      match om with
      | some m =>
          if m.name ∈ md.used_material_names then pyInsert Material.mid acc m else acc
      | none => acc)
    mats

mutual
/-- The recursive walk `scan_r` (lines 37-60): skip helper objects, for a
MESH record the mesh writer, modifier armatures, and used materials, for
an ARMATURE add it to the armature set, then recurse into the children. -/
def scan_r (o : BpyObj) (st : ScanState) : ScanState :=
  match o with
  | .mk helper data mods _ _ kids =>
    if helper then st
    else
      scanKids kids
        (match data with
         | .mesh md =>
             { st with
               mesh_writers := st.mesh_writers ++ [md.encoded]
               armatures := addModifierArms st.armatures mods
               materials := addUsedMaterials st.materials md }
         | .armature a => { st with armatures := pyInsert Armature.aid st.armatures a }
         | .other => st)

/-- Walk a list of children left to right (line 59-60). -/
def scanKids (l : ObjList) (st : ScanState) : ScanState :=
  match l with
  | .nil => st
  | .cons o rest => scanKids rest (scan_r o st)
end

/-- A per-bone sub-chunk writer produced by the external bone encoder; it
records which bone it encodes. -/
structure BoneWriter where
  bname : String
deriving DecidableEq

/-- Modelled from the spec: the external bone encoder `bone.export_bone`
(not under `src/`) — appends one sub-chunk writer for the given bone to
the caller's list and records the bone's name → emitted index in the
caller's bone map. -/
def export_bone (b : Bone) (writers : List BoneWriter) (bonemap : List (String × Nat)) :
    List BoneWriter × List (String × Nat) :=
  (writers ++ [⟨b.name⟩], bonemap ++ [(b.name, bonemap.length)])

/-- The per-armature bone loop of `export_meshes` (lines 65-72): a fresh
bone map, then every exportable bone of `data.bones` in stored order is
handed to the bone encoder.  The bone map is returned here (the source
discards it after the loop) so its contents can be stated. -/
def armBones (arm : Armature) (writers : List BoneWriter) :
    List BoneWriter × List (String × Nat) :=
  arm.bones.foldl
    (fun wb b => if !is_exportable_bone b then wb else export_bone b wb.1 wb.2)
    (writers, [])

/-- Result of `export_meshes`: the MESHES chunk it wrote plus its return
tuple `(materials, bone_writers, some_arm, bpy_root)`; `bpy_root` is the
argument object itself and is not repeated here. -/
structure MeshesOut where
  chunks : List Chunk
  materials : List Material
  bone_writers : List BoneWriter
  some_arm : Option Armature

/-- Embedding of `export_meshes` (lines 31-87).  `enumArm` is the run's set-iteration
order for the armature set (used both by the bone loop of line 65 and by
`list(armatures)` of line 82; iterating an unmodified CPython set twice
yields the same order). -/
def export_meshes (enumArm : List Armature → List Armature) (bpy_obj : BpyObj) :
    MeshesOut :=
  let st := scan_r bpy_obj ⟨[], [], []⟩
  let bone_writers :=
    (enumArm st.armatures).foldl (fun ws arm => (armBones arm ws).1) []
  let msw : List Chunk := st.mesh_writers.enum.map fun p => ⟨p.1, serializeChunks p.2⟩
  let arm_list := enumArm st.armatures
  let some_arm := arm_list.head?
  { chunks := [⟨MESHES, serializeChunks msw⟩]
    materials := st.materials
    bone_writers := bone_writers
    some_arm := some_arm }

/-! ## Section encoders -/

/-- Per-export configuration plus the external collaborators the encoders
call (each function field is — modelled from the spec — an external module
not under `src/`): `gen_texture_name` (`utils`), `motion_encoder`
(`xray_motions.export_motions`), `to_euler_yxz` (`mathutils`, Euler
extraction in the fixed `'YXZ'` order). -/
structure Context where
  texname_from_path : Bool
  textures_folder : String
  export_motions : Bool
  soc_sgroups : Bool
  gen_texture_name : Texture → String → String
  motion_encoder : List Action → Armature → List Datum
  to_euler_yxz : Mat4 → Vec3

/-- Embedding of `export_version` (lines 17-21). -/
def versionChunk : Chunk := ⟨VERSION, [pU16 0x10]⟩

/-- Embedding of `export_flags` (lines 24-28): the flags value, or 0 when the object
has no `xray` block. -/
def flagsChunk (xray : Option ObjXray) : Chunk :=
  ⟨FLAGS, [pU32 (match xray with | some x => x.flags | none => 0)]⟩

/-- The texture-name computation of `export_surfaces` (lines 105-112). -/
def txName (ctx : Context) (m : Material) : String :=
  match m.active_texture with
  | some t =>
      if ctx.texname_from_path then ctx.gen_texture_name t ctx.textures_folder
      else t.name
  | none => ""

/-- The UV-layer computation of `export_surfaces` (lines 114-115): the
slot at `active_texture_index` is read independently of `active_texture`;
a `None` slot (falsy) yields the empty string. -/
def slotUvLayer (m : Material) : String :=
  match m.texture_slots.getD m.active_texture_index none with
  | some s => s.uv_layer
  | none => ""

/-- One material's entry in the SURFACES payload (lines 94-120). -/
def surfaceEntry (ctx : Context) (m : Material) : List Datum :=
  [.str m.name]
    ++ (match m.xray with
        | some x => [.str x.eshader, .str x.cshader, .str x.gamemtl]
        | none => [.str "", .str "", .str ""])
    ++ [.str (txName ctx m), .str (slotUvLayer m)]
    ++ [pU32 (match m.xray with | some x => x.flags | none => 0)]
    ++ [pU32 0x112, pU32 1]

/-- Embedding of `export_surfaces` (lines 90-121); `materials` is the material set in
the run's iteration order. -/
def export_surfaces (ctx : Context) (materials : List Material) : Chunk :=
  ⟨SURFACES2,
    pU32 materials.length :: materials.foldr (fun m acc => surfaceEntry ctx m ++ acc) []⟩

/-- Embedding of `export_bones` (lines 124-131): emitted only when some bones were
collected; sequentially-indexed per-bone sub-chunks. -/
def export_bones (bws : List BoneWriter) : List Chunk :=
  if bws ≠ [] then
    [⟨BONES1, serializeChunks (bws.enum.map fun p => ⟨p.1, [.str p.2.bname]⟩)⟩]
  else []

/-- Python `str.splitlines` restricted to the line breaks that occur in
Blender text (`\n`, `\r`, `\r\n`). -/
def splitlinesGo : List Char → List Char → List String
  | [], cur => if cur = [] then [] else [String.mk cur.reverse]
  | '\r' :: '\n' :: rest, cur => String.mk cur.reverse :: splitlinesGo rest []
  | '\r' :: rest, cur => String.mk cur.reverse :: splitlinesGo rest []
  | '\n' :: rest, cur => String.mk cur.reverse :: splitlinesGo rest []
  | c :: rest, cur => splitlinesGo rest (c :: cur)

/-- The CRLF normalization of `export_user_data` (line 139). -/
def crlfNormalize (s : String) : String :=
  String.intercalate "\r\n" (splitlinesGo s.data [])

/-- Embedding of `export_user_data` (lines 134-141): dereferences `xray.userdata`, so
`xray = None` raises `AttributeError`; an empty string (falsy) emits
nothing. -/
def export_user_data (xray : Option ObjXray) : Except PyErr (List Chunk) :=
  match xray with
  | none => .error .attributeError
  | some x =>
      if x.userdata ≠ "" then .ok [⟨USERDATA, [.str (crlfNormalize x.userdata)]⟩]
      else .ok []

/-- Embedding of `export_loddef` (lines 144-149). -/
def export_loddef (xray : Option ObjXray) : Except PyErr (List Chunk) :=
  match xray with
  | none => .error .attributeError
  | some x =>
      if x.lodref ≠ "" then .ok [⟨LOD_REF, [.str x.lodref]⟩]
      else .ok []

/-- The `bpy.data.actions[name]` lookups of line 158; a missing name
raises `KeyError`. -/
def lookupActions (reg : List (String × Action)) : List String → Except PyErr (List Action)
  | [] => .ok []
  | n :: ns =>
      match reg.lookup n with
      | some a => (lookupActions reg ns).map fun rest => a :: rest
      | none => .error .keyError

/-- Embedding of `export_motions` (lines 152-162): only when an armature was found and
motion export is on; the referenced motion names are deduplicated and
sorted, resolved against the action registry, and handed to the external
motion encoder; an empty resulting buffer emits nothing. -/
def export_motions (reg : List (String × Action)) (ctx : Context)
    (some_arm : Option Armature) (xray : Option ObjXray) :
    Except PyErr (List Chunk) :=
  match some_arm with
  | none => .ok []
  | some arm =>
      if ctx.export_motions then
        match xray with
        | none => .error .attributeError
        | some x =>
            let acts := ((x.motions_collection.map Motion.name).dedup).mergeSort (· ≤ ·)
            (lookupActions reg acts).map fun actions =>
              let w := ctx.motion_encoder actions arm
              if w ≠ [] then [⟨MOTIONS, w⟩] else []
      else .ok []

/-- The exportable pose bones of `export_partitions` (lines 167-171);
`pose.bones` and `data.bones` correspond 1-1 by name (Blender invariant),
merged into `Armature.bones`. -/
def exportableBones (arm : Armature) : List Bone :=
  arm.bones.filter fun b => is_exportable_bone b

/-- Embedding of `all_groups` of `export_partitions` (lines 172-179): per pose bone
group, the names of the exportable bones belonging to it. -/
def allGroups (arm : Armature) : List (String × List String) :=
  arm.bone_groups.map fun g =>
    (g.name, ((exportableBones arm).filter fun b => b.group = some g.gid).map Bone.name)

/-- Embedding of `non_empty_groups` (lines 180-184). -/
def nonEmptyGroups (arm : Armature) : List (String × List String) :=
  (allGroups arm).filter fun p => !p.2.isEmpty

/-- Embedding of `export_partitions` (lines 165-193). -/
def export_partitions (some_arm : Option Armature) : List Chunk :=
  match some_arm with
  | none => []
  | some arm =>
      if arm.bone_groups ≠ [] then
        let neg := nonEmptyGroups arm
        if neg ≠ [] then
          [⟨PARTITIONS1,
            pU32 neg.length ::
              neg.foldr
                (fun p acc => .str p.1 :: pU32 p.2.length :: (p.2.map .str ++ acc)) []⟩]
        else []
      else []

/-- Embedding of `export_motion_refs` (lines 196-217): returns the chunks written and
the number of warnings logged. -/
def export_motion_refs (ctx : Context) (xray : Option ObjXray) :
    Except PyErr (List Chunk × Nat) :=
  match xray with
  | none => .error .attributeError
  | some x =>
      if x.motionrefs_collection ≠ [] then
        let warnings := if x.motionrefs ≠ "" then 1 else 0
        if ctx.soc_sgroups then
          .ok ([⟨MOTION_REFS,
                 [.str (String.intercalate ","
                          (x.motionrefs_collection.map MotionRef.name))]⟩],
               warnings)
        else
          .ok ([⟨SMOTIONS3,
                 pU32 x.motionrefs_collection.length ::
                   x.motionrefs_collection.map fun r => .str r.name⟩],
               warnings)
      else if x.motionrefs ≠ "" then
        .ok ([⟨MOTION_REFS, [.str x.motionrefs]⟩], 0)
      else .ok ([], 0)

/-- Embedding of `pw_v3f` (lines 13-14): swap the 2nd and 3rd components. -/
def pw_v3f (v : Vec3) : Rat × Rat × Rat := (v.x, v.z, v.y)

/-- Embedding of `export_transform` (lines 220-226): only when the root's world matrix
differs from the identity; converted translation then converted Euler
angles. -/
def export_transform (ctx : Context) (bpy_root : BpyObj) : List Chunk :=
  let rm := bpy_root.matrix_world
  if rm ≠ Mat4.identity then
    let t := pw_v3f rm.to_translation
    let e := pw_v3f (ctx.to_euler_yxz rm)
    [⟨TRANSFORM, [.f32 t.1, .f32 t.2.1, .f32 t.2.2, .f32 e.1, .f32 e.2.1, .f32 e.2.2]⟩]
  else []

/-- The payload of `export_revision` (lines 229-244) as a function of the
stored revision, the current user string, and the current time. -/
def export_revision (rev : Revision) (curruser : String) (currtime : Nat) :
    List Datum :=
  if rev.owner = "" ∨ rev.owner = curruser then
    [.str curruser, pU32 (if rev.ctime ≠ 0 then rev.ctime else currtime),
     .str "", pU32 0]
  else
    [.str rev.owner, pU32 rev.ctime, .str curruser, pU32 currtime]

/-- Wrapper of `export_revision` as called from `export_main`: dereferences
`xray.revision`, so `xray = None` raises. -/
def revisionChunk (xray : Option ObjXray) (curruser : String) (currtime : Nat) :
    Except PyErr Chunk :=
  match xray with
  | none => .error .attributeError
  | some x => .ok ⟨REVISION, export_revision x.revision curruser currtime⟩

/-! ## The orchestrator (`export_main`, lines 248-264) -/

/-- Outcome of one `export_main` run: the chunks written before the run
ended, the warnings logged, and the unhandled error, if any. -/
structure ExportResult where
  chunks : List Chunk
  warnings : Nat
  error : Option PyErr
deriving DecidableEq

/-- Embedding of `export_main` (lines 248-264).  `reg` is the global action registry,
`curruser`/`currtime` the simulated identity and clock of
`export_revision`, `enumArm`/`enumMat` the run's set-iteration orders for
the armature and material sets.  Sections run in the source's fixed order;
an unhandled error stops the run with the chunks written so far. -/
def export_main (reg : List (String × Action)) (ctx : Context)
    (enumArm : List Armature → List Armature)
    (enumMat : List Material → List Material)
    (curruser : String) (currtime : Nat) (bpy_obj : BpyObj) : ExportResult :=
  let xray := bpy_obj.xray
  let mo := export_meshes enumArm bpy_obj
  let pre :=
    [versionChunk, flagsChunk xray] ++ mo.chunks
      ++ [export_surfaces ctx (enumMat mo.materials)]
      ++ export_bones mo.bone_writers
  match export_user_data xray with
  | .error e => ⟨pre, 0, some e⟩
  | .ok ud =>
  match export_loddef xray with
  | .error e => ⟨pre ++ ud, 0, some e⟩
  | .ok ld =>
  match export_motions reg ctx mo.some_arm xray with
  | .error e => ⟨pre ++ ud ++ ld, 0, some e⟩
  | .ok mt =>
  let pt := export_partitions mo.some_arm
  match export_motion_refs ctx xray with
  | .error e => ⟨pre ++ ud ++ ld ++ mt ++ pt, 0, some e⟩
  | .ok (mr, w) =>
  let tf := export_transform ctx bpy_obj
  match revisionChunk xray curruser currtime with
  | .error e => ⟨pre ++ ud ++ ld ++ mt ++ pt ++ mr ++ tf, w, some e⟩
  | .ok rv => ⟨pre ++ ud ++ ld ++ mt ++ pt ++ mr ++ tf ++ [rv], w, none⟩

/-! ## Helper lemmas and shared test fixtures -/

/-- A permutation-valid enumeration leaves a set of at most one element
unchanged: such a run's iteration order is forced. -/
theorem validEnum_fix {f : List α → List α} (hf : ValidEnum f) :
    ∀ l : List α, l.length ≤ 1 → f l = l := by
  intro l hl
  match l with
  | [] => exact (hf []).eq_nil
  | [a] => exact List.perm_singleton.mp (hf [a])

/-- A fixed test configuration used by concrete witnesses. -/
def ctxTest : Context :=
  ⟨false, "", false, true, fun t _ => t.name, fun _ _ => [], fun _ => ⟨0, 0, 0⟩⟩

/-- A material with no active texture but a texture-less slot that carries
a UV-layer name (Blender: `material.texture_slots.add()` then set
`uv_layer`). -/
def matNoTex : Material := ⟨5, "m", none, none, [some ⟨"uv"⟩], 0⟩

/-! ## C2 — surfaces entry of a material with no active texture -/

/-- C2 (counterexample): a material with no active texture whose slot at
the active index carries UV-layer name `"uv"` gets `""` in the
texture-name field but `"uv"` (not `""`) in the UV-layer field, refuting
the claim that both fields are empty whenever there is no active
texture. -/
theorem c2_counterexample :
    matNoTex.active_texture = none ∧
    surfaceEntry ctxTest matNoTex =
      [.str "m", .str "", .str "", .str "", .str "", .str "uv",
       .u32 0, .u32 0x112, .u32 1] ∧
    Datum.str "uv" ≠ .str "" := by decide

/-- C2 (amended): for every exported material with no active texture, the
texture-name field (position 4 of its SURFACES entry) is the empty string,
and the UV-layer field (position 5) is the `uv_layer` of the slot at the
active texture index — empty when that slot is null, but possibly
non-empty when a texture-less slot exists there. -/
theorem c2_amended (ctx : Context) (m : Material) (h : m.active_texture = none) :
    (surfaceEntry ctx m).get? 4 = some (.str "") ∧
    (surfaceEntry ctx m).get? 5 = some (.str (slotUvLayer m)) ∧
    (m.texture_slots.getD m.active_texture_index none = none → slotUvLayer m = "") := by
  refine ⟨?_, ?_, ?_⟩
  · rcases hx : m.xray with _ | x <;> simp [surfaceEntry, txName, h, hx]
  · rcases hx : m.xray with _ | x <;> simp [surfaceEntry, hx]
  · intro hs; unfold slotUvLayer; rw [hs]

/-- C2 (witness): the amended theorem applied to a concrete material whose
active-index slot is null, so both fields come out empty. -/
theorem c2_witness :
    (surfaceEntry ctxTest ⟨6, "w", none, none, [], 0⟩).get? 4 = some (.str "") ∧
    (surfaceEntry ctxTest ⟨6, "w", none, none, [], 0⟩).get? 5 =
      some (.str (slotUvLayer ⟨6, "w", none, none, [], 0⟩)) ∧
    ((⟨6, "w", none, none, [], 0⟩ : Material).texture_slots.getD 0 none = none →
      slotUvLayer ⟨6, "w", none, none, [], 0⟩ = "") :=
  c2_amended ctxTest ⟨6, "w", none, none, [], 0⟩ rfl

/-! ## C4 — the revision state machine -/

/-- C4 (counterexample): `export_revision` never writes back to the stored
revision, so exporting twice in succession as the same user with a
never-set revision and an advancing clock writes the then-current time
each run: the second export's ctime field (2) differs from the first's
(1), refuting the claimed consequence. -/
theorem c4_counterexample :
    export_revision ⟨"", 0⟩ "u" 1 = [.str "u", .u32 1, .str "", .u32 0] ∧
    export_revision ⟨"", 0⟩ "u" 2 = [.str "u", .u32 2, .str "", .u32 0] ∧
    export_revision ⟨"", 0⟩ "u" 1 ≠ export_revision ⟨"", 0⟩ "u" 2 := by decide

/-- C4 (amended): `export_revision` implements the two-case transition: if
the stored owner is empty or equals the current user it writes
`(currentUser, storedCtime if non-zero else currentTime, "", 0)`,
otherwise `(storedOwner, storedCtime, currentUser, currentTime)`.
Exporting twice in succession as the same user (the stored revision is
unchanged, since the transition never mutates it) yields the same owner
field, and the second export's ctime equals the first's whenever the
stored ctime is non-zero; with a never-set ctime each export writes its
own current time. -/
theorem c4_amended (rev : Revision) (u : String) (t : Nat) :
    ((rev.owner = "" ∨ rev.owner = u) →
      export_revision rev u t =
        [.str u, .u32 ((if rev.ctime ≠ 0 then rev.ctime else t) % 2 ^ 32),
         .str "", .u32 0]) ∧
    ((rev.owner ≠ "" ∧ rev.owner ≠ u) →
      export_revision rev u t =
        [.str rev.owner, .u32 (rev.ctime % 2 ^ 32), .str u, .u32 (t % 2 ^ 32)]) ∧
    (∀ t₂, (export_revision rev u t).head? = (export_revision rev u t₂).head?) ∧
    (∀ t₂, rev.ctime ≠ 0 →
      (export_revision rev u t).get? 1 = (export_revision rev u t₂).get? 1) := by
  by_cases hc : rev.owner = "" ∨ rev.owner = u
  · refine ⟨fun _ => ?_, fun hn => absurd hc (by tauto), fun t₂ => ?_, fun t₂ hct => ?_⟩
    · simp [export_revision, hc, pU32]
    · simp [export_revision, hc]
    · simp [export_revision, hc, hct]
  · refine ⟨fun h => absurd h hc, fun _ => ?_, fun t₂ => ?_, fun t₂ hct => ?_⟩
    · simp [export_revision, hc, pU32]
    · simp [export_revision, hc]
    · simp [export_revision, hc]

/-- C4 (witness): the amended theorem at a concrete foreign-owner
revision: the prior owner and ctime are preserved and the current pair is
appended. -/
theorem c4_witness :
    export_revision ⟨"o", 7⟩ "u" 9 =
      [.str "o", .u32 (7 % 2 ^ 32), .str "u", .u32 (9 % 2 ^ 32)] :=
  (c4_amended ⟨"o", 7⟩ "u" 9).2.1 ⟨by decide, by decide⟩

/-! ## C6 — motion-reference precedence and encodings -/

/-- C6 (confirmed): with the modern collection non-empty and the legacy
string also set, `export_motion_refs` emits the modern-collection encoding
and logs exactly one warning; under `soc_sgroups = true` the payload is
the single comma-joined string under the legacy chunk id, under
`soc_sgroups = false` a u32 count followed by the individual names under
the alternate chunk id. -/
theorem c6_motion_refs (ctx : Context) (x : ObjXray)
    (hc : x.motionrefs_collection ≠ []) (hl : x.motionrefs ≠ "") :
    (ctx.soc_sgroups = true →
      export_motion_refs ctx (some x) =
        .ok ([⟨MOTION_REFS,
               [.str (String.intercalate ","
                        (x.motionrefs_collection.map MotionRef.name))]⟩], 1)) ∧
    (ctx.soc_sgroups = false →
      export_motion_refs ctx (some x) =
        .ok ([⟨SMOTIONS3,
               pU32 x.motionrefs_collection.length ::
                 x.motionrefs_collection.map fun r => Datum.str r.name⟩], 1)) := by
  constructor <;> intro hs <;> simp [export_motion_refs, hc, hl, hs]

/-- C6 (witness): both-populated data under `soc_sgroups = true` yields
the comma-joined legacy-id form with one warning. -/
theorem c6_witness :
    export_motion_refs ctxTest (some ⟨0, "", "", "legacy", [⟨"a"⟩, ⟨"b"⟩], [], ⟨"", 0⟩⟩) =
      .ok ([⟨MOTION_REFS,
             [.str (String.intercalate ","
                      (([⟨"a"⟩, ⟨"b"⟩] : List MotionRef).map MotionRef.name))]⟩], 1) :=
  (c6_motion_refs ctxTest ⟨0, "", "", "legacy", [⟨"a"⟩, ⟨"b"⟩], [], ⟨"", 0⟩⟩
    (by decide) (by decide)).1 rfl

/-! ## C8 — the TRANSFORM chunk -/

/-- C8 (confirmed): the TRANSFORM chunk is emitted iff the root's world
matrix differs from the identity; when emitted, the payload is the
translation column with 2nd and 3rd components swapped as three floats,
followed by the YXZ Euler angles, also component-swapped, as three
floats. -/
theorem c8_transform (ctx : Context) (o : BpyObj) :
    (export_transform ctx o = [] ↔ o.matrix_world = Mat4.identity) ∧
    (o.matrix_world ≠ Mat4.identity →
      export_transform ctx o =
        [⟨TRANSFORM,
          [.f32 o.matrix_world.m03, .f32 o.matrix_world.m23, .f32 o.matrix_world.m13,
           .f32 (ctx.to_euler_yxz o.matrix_world).x,
           .f32 (ctx.to_euler_yxz o.matrix_world).z,
           .f32 (ctx.to_euler_yxz o.matrix_world).y]⟩]) := by
  constructor
  · by_cases h : o.matrix_world = Mat4.identity <;>
      simp [export_transform, h, pw_v3f, Mat4.to_translation]
  · intro h
    simp [export_transform, h, pw_v3f, Mat4.to_translation]

/-- A root object whose world matrix is a pure translation by (1, 2, 3). -/
def objMoved : BpyObj :=
  .mk false .other [] none
    ⟨1, 0, 0, 1, 0, 1, 0, 2, 0, 0, 1, 3, 0, 0, 0, 1⟩ .nil

/-- C8 (witness): the theorem at a translated root object: the chunk is
emitted with the swapped translation (1, 3, 2) and the swapped Euler
triple. -/
theorem c8_witness :
    export_transform ctxTest objMoved =
      [⟨TRANSFORM,
        [.f32 objMoved.matrix_world.m03, .f32 objMoved.matrix_world.m23,
         .f32 objMoved.matrix_world.m13,
         .f32 (ctxTest.to_euler_yxz objMoved.matrix_world).x,
         .f32 (ctxTest.to_euler_yxz objMoved.matrix_world).z,
         .f32 (ctxTest.to_euler_yxz objMoved.matrix_world).y]⟩] :=
  (c8_transform ctxTest objMoved).2 (by decide)

/-! ## C10 — export of an object without an xray block -/

/-- Every chunk `export_bones` writes has id `BONES1`. -/
theorem export_bones_cid (bws : List BoneWriter) :
    ∀ c ∈ export_bones bws, c.cid = BONES1 := by
  intro c hc
  unfold export_bones at hc
  split at hc
  · simp at hc; rw [hc]
  · simp at hc

/-- The chunk `export_meshes` writes: one MESHES container holding the
sequentially-indexed mesh sub-writers. -/
theorem export_meshes_chunks (eA : List Armature → List Armature) (o : BpyObj) :
    (export_meshes eA o).chunks =
      [⟨MESHES,
        serializeChunks ((scan_r o ⟨[], [], []⟩).mesh_writers.enum.map
          fun p => ⟨p.1, serializeChunks p.2⟩)⟩] := rfl

/-- An xray-less run of `export_main` reduces to the sections written
before `export_user_data` raised. -/
theorem export_main_none (reg : List (String × Action)) (ctx : Context)
    (eA : List Armature → List Armature) (eM : List Material → List Material)
    (u : String) (t : Nat) (o : BpyObj) (h : o.xray = none) :
    export_main reg ctx eA eM u t o =
      ⟨[versionChunk, flagsChunk none] ++ (export_meshes eA o).chunks
        ++ [export_surfaces ctx (eM (export_meshes eA o).materials)]
        ++ export_bones (export_meshes eA o).bone_writers,
       0, some .attributeError⟩ := by
  unfold export_main
  rw [h]
  rfl

/-- C10 (confirmed): for a root object without an `xray` block,
`export_main` works with `xray = None`: the FLAGS chunk (position 1) is
written with value 0, but the run ends with an unhandled `AttributeError`
from `export_user_data` dereferencing `xray.userdata`, and only the
VERSION/FLAGS/MESHES/SURFACES/BONES sections can have been written — none
of the remaining sections are. -/
theorem c10_no_xray (reg : List (String × Action)) (ctx : Context)
    (eA : List Armature → List Armature) (eM : List Material → List Material)
    (u : String) (t : Nat) (o : BpyObj) (h : o.xray = none) :
    (export_main reg ctx eA eM u t o).error = some .attributeError ∧
    (export_main reg ctx eA eM u t o).chunks.get? 1 = some ⟨FLAGS, [.u32 0]⟩ ∧
    ∀ c ∈ (export_main reg ctx eA eM u t o).chunks,
      c.cid = VERSION ∨ c.cid = FLAGS ∨ c.cid = MESHES ∨
        c.cid = SURFACES2 ∨ c.cid = BONES1 := by
  rw [export_main_none reg ctx eA eM u t o h]
  refine ⟨rfl, ?_, ?_⟩
  · simp [versionChunk, flagsChunk, pU32]
  · intro c hc
    simp only [export_meshes_chunks, export_surfaces, List.mem_append,
      List.mem_cons, List.not_mem_nil, or_false, or_assoc] at hc
    rcases hc with hc | hc | hc | hc | hc
    · left; subst hc; rfl
    · right; left; subst hc; rfl
    · right; right; left; subst hc; rfl
    · right; right; right; left; subst hc; rfl
    · right; right; right; right; exact export_bones_cid _ c hc

/-- A root object that carries no xray extension data. -/
def objNoXray : BpyObj := .mk false .other [] none Mat4.identity .nil

/-- C10 (witness): the theorem at a concrete xray-less object. -/
theorem c10_witness :
    (export_main [] ctxTest id id "u" 0 objNoXray).error = some .attributeError ∧
    (export_main [] ctxTest id id "u" 0 objNoXray).chunks.get? 1 =
      some ⟨FLAGS, [.u32 0]⟩ ∧
    ∀ c ∈ (export_main [] ctxTest id id "u" 0 objNoXray).chunks,
      c.cid = VERSION ∨ c.cid = FLAGS ∨ c.cid = MESHES ∨
        c.cid = SURFACES2 ∨ c.cid = BONES1 :=
  c10_no_xray [] ctxTest id id "u" 0 objNoXray rfl

/-! ## C5 — minimal object: exact chunk sequence -/

/-- C5 (confirmed): an object with no meshes, no armature, empty user
data, no LOD reference, no motion references, identity world transform and
a never-set revision produces exactly VERSION, FLAGS, MESHES (empty nested
container), SURFACES (count 0) and REVISION, in that order, with no other
chunk, no warning and no error. -/
theorem c5_minimal_object (reg : List (String × Action)) (ctx : Context)
    (eA : List Armature → List Armature) (eM : List Material → List Material)
    (u : String) (t : Nat) (helper : Bool) (mods : List Modifier)
    (f : Nat) (mc : List Motion)
    (hA : ValidEnum eA) (hM : ValidEnum eM) :
    export_main reg ctx eA eM u t
        (.mk helper .other mods (some ⟨f, "", "", "", [], mc, ⟨"", 0⟩⟩)
          Mat4.identity .nil) =
      ⟨[⟨VERSION, [.u16 0x10]⟩, ⟨FLAGS, [.u32 (f % 2 ^ 32)]⟩, ⟨MESHES, []⟩,
        ⟨SURFACES2, [.u32 0]⟩,
        ⟨REVISION, [.str u, .u32 (t % 2 ^ 32), .str "", .u32 0]⟩], 0, none⟩ := by
  have hA0 : eA [] = [] := validEnum_fix hA [] (by simp)
  have hM0 : eM [] = [] := validEnum_fix hM [] (by simp)
  unfold export_main export_meshes
  have hscan :
      scan_r (.mk helper .other mods (some ⟨f, "", "", "", [], mc, ⟨"", 0⟩⟩)
          Mat4.identity .nil) ⟨[], [], []⟩ = ⟨[], [], []⟩ := by
    cases helper <;> rfl
  rw [hscan]
  simp only [hA0, hM0]
  simp [versionChunk, flagsChunk, export_surfaces, export_bones, export_user_data,
    export_loddef, export_motions, export_partitions, export_motion_refs,
    export_transform, revisionChunk, export_revision, serializeChunks, pU16, pU32,
    BpyObj.xray, BpyObj.matrix_world, Nat.mod_eq_of_lt]

/-- C5 (witness): the theorem at a concrete minimal object with identity
enumerations. -/
theorem c5_witness :
    export_main [] ctxTest id id "u" 3
        (.mk false .other [] (some ⟨7, "", "", "", [], [], ⟨"", 0⟩⟩)
          Mat4.identity .nil) =
      ⟨[⟨VERSION, [.u16 0x10]⟩, ⟨FLAGS, [.u32 (7 % 2 ^ 32)]⟩, ⟨MESHES, []⟩,
        ⟨SURFACES2, [.u32 0]⟩,
        ⟨REVISION, [.str "u", .u32 (3 % 2 ^ 32), .str "", .u32 0]⟩], 0, none⟩ :=
  c5_minimal_object [] ctxTest id id "u" 3 false [] 7 []
    (fun l => List.Perm.refl l) (fun l => List.Perm.refl l)

/-! ## C3 — choice of armature for the skeleton-wide sections -/

/-- First armature collected during the walk. -/
def armX : Armature := ⟨1, [], []⟩

/-- Second armature collected during the walk. -/
def armY : Armature := ⟨2, [], []⟩

/-- A root with two ARMATURE children, encountered in the order
`armX`, `armY`. -/
def objTwoArms : BpyObj :=
  .mk false .other [] (some ⟨0, "", "", "", [], [], ⟨"", 0⟩⟩) Mat4.identity
    (.cons (.mk false (.armature armX) [] none Mat4.identity .nil)
      (.cons (.mk false (.armature armY) [] none Mat4.identity .nil) .nil))

/-- C3 (counterexample): `some_arm` is `list(armatures)[0]` of a Python
`set`, whose iteration order is not the walk order.  On a scene whose walk
encounters `armX` first, a run whose set enumeration lists the two-element
armature set in reverse (a legitimate CPython iteration order) selects
`armY`, not the first armature encountered during the walk. -/
theorem c3_counterexample :
    (scan_r objTwoArms ⟨[], [], []⟩).armatures.head? = some armX ∧
    (export_meshes List.reverse objTwoArms).some_arm = some armY ∧
    armY ≠ armX ∧
    ValidEnum (List.reverse (α := Armature)) :=
  ⟨by decide, by decide, by decide, fun l => l.reverse_perm⟩

/-- C3 (amended): the armature used for the skeleton-wide sections is the
first element of the run's enumeration of the collected armature set — an
arbitrary set element; only when at most one armature is collected is it
necessarily the first (indeed only) armature encountered during the
walk. -/
theorem c3_amended (eA : List Armature → List Armature) (obj : BpyObj)
    (hA : ValidEnum eA) :
    (export_meshes eA obj).some_arm =
      (eA (scan_r obj ⟨[], [], []⟩).armatures).head? ∧
    ((scan_r obj ⟨[], [], []⟩).armatures.length ≤ 1 →
      (export_meshes eA obj).some_arm =
        (scan_r obj ⟨[], [], []⟩).armatures.head?) := by
  constructor
  · rfl
  · intro hlen
    show (eA (scan_r obj ⟨[], [], []⟩).armatures).head? = _
    rw [validEnum_fix hA _ hlen]

/-- C3 (witness): with a single collected armature every valid enumeration
yields that armature. -/
theorem c3_witness :
    (export_meshes List.reverse
        (.mk false (.armature armX) [] none Mat4.identity .nil)).some_arm =
      (scan_r (.mk false (.armature armX) [] none Mat4.identity .nil)
        ⟨[], [], []⟩).armatures.head? :=
  (c3_amended List.reverse (.mk false (.armature armX) [] none Mat4.identity .nil)
    (fun l => l.reverse_perm)).2 (by decide)

/-! ## C1 — determinism of a full export run -/

/-- A material of identity 1 named `A`. -/
def matA : Material := ⟨1, "A", none, none, [], 0⟩

/-- A material of identity 2 named `B`. -/
def matB : Material := ⟨2, "B", none, none, [], 0⟩

/-- A root MESH object whose faces use the two slot materials `A` and
`B`. -/
def objTwoMats : BpyObj :=
  .mk false (.mesh ⟨[some matA, some matB], ["A", "B"], []⟩) []
    (some ⟨0, "", "", "", [], [], ⟨"", 0⟩⟩) Mat4.identity .nil

/-- C1 (counterexample): two runs of `export_main` on the same frozen
scene, configuration, user and clock, differing only in the CPython
set-iteration order (id and reverse — both legitimate enumerations of the
two-element material set, as the `ValidEnum` conjuncts state), produce
different byte streams: the SURFACES entries come out as `A, B` in one run
and `B, A` in the other. -/
theorem c1_counterexample :
    export_main [] ctxTest id id "u" 0 objTwoMats ≠
      export_main [] ctxTest id List.reverse "u" 0 objTwoMats ∧
    ValidEnum (id : List Material → List Material) ∧
    ValidEnum (List.reverse (α := Material)) :=
  ⟨by decide, fun l => List.Perm.refl l, fun l => l.reverse_perm⟩

/-- C1 (amended): the output of `export_main` is a deterministic function
of the scene snapshot, configuration, user and clock only up to the
runtime's set-iteration order: whenever the walk collects at most one
material and at most one armature, any two runs (any two valid
enumerations) produce identical output; with two or more the SURFACES
entry order and the armature choice follow the enumeration order, which
CPython derives from memory addresses rather than from the scene. -/
theorem c1_amended (reg : List (String × Action)) (ctx : Context)
    (eA₁ eA₂ : List Armature → List Armature)
    (eM₁ eM₂ : List Material → List Material)
    (u : String) (t : Nat) (obj : BpyObj)
    (hA₁ : ValidEnum eA₁) (hA₂ : ValidEnum eA₂)
    (hM₁ : ValidEnum eM₁) (hM₂ : ValidEnum eM₂)
    (harm : (scan_r obj ⟨[], [], []⟩).armatures.length ≤ 1)
    (hmat : (scan_r obj ⟨[], [], []⟩).materials.length ≤ 1) :
    export_main reg ctx eA₁ eM₁ u t obj = export_main reg ctx eA₂ eM₂ u t obj := by
  have ha₁ := validEnum_fix hA₁ _ harm
  have ha₂ := validEnum_fix hA₂ _ harm
  have hm₁ := validEnum_fix hM₁ _ hmat
  have hm₂ := validEnum_fix hM₂ _ hmat
  simp only [export_main, export_meshes, ha₁, ha₂, hm₁, hm₂]

/-- C1 (witness): a one-material scene exports identically under the id
and the reversed enumerations. -/
theorem c1_witness :
    export_main [] ctxTest id id "u" 0
        (.mk false (.mesh ⟨[some matA], ["A"], []⟩) []
          (some ⟨0, "", "", "", [], [], ⟨"", 0⟩⟩) Mat4.identity .nil) =
      export_main [] ctxTest List.reverse List.reverse "u" 0
        (.mk false (.mesh ⟨[some matA], ["A"], []⟩) []
          (some ⟨0, "", "", "", [], [], ⟨"", 0⟩⟩) Mat4.identity .nil) :=
  c1_amended [] ctxTest id List.reverse id List.reverse "u" 0
    (.mk false (.mesh ⟨[some matA], ["A"], []⟩) []
      (some ⟨0, "", "", "", [], [], ⟨"", 0⟩⟩) Mat4.identity .nil)
    (fun l => List.Perm.refl l) (fun l => l.reverse_perm)
    (fun l => List.Perm.refl l) (fun l => l.reverse_perm)
    (by decide) (by decide)

/-! ## C7 — non-exportable bones are invisible -/

/-- The writer list accumulated by the bone loop: the incoming writers
followed by one writer per exportable bone, in stored order. -/
theorem armBones_go_writers (bs : List Bone) :
    ∀ (ws : List BoneWriter) (bm : List (String × Nat)),
      (bs.foldl (fun wb b => if !is_exportable_bone b then wb else export_bone b wb.1 wb.2)
          (ws, bm)).1
        = ws ++ (bs.filter fun b => is_exportable_bone b).map fun b => (⟨b.name⟩ : BoneWriter) := by
  induction bs with
  | nil => intro ws bm; simp
  | cons b rest ih =>
    intro ws bm
    by_cases hb : is_exportable_bone b
    · simp only [List.foldl_cons, hb, Bool.not_true, Bool.false_eq_true, if_false]
      rw [show export_bone b ws bm
          = (ws ++ [(⟨b.name⟩ : BoneWriter)], bm ++ [(b.name, bm.length)]) from rfl]
      rw [ih]
      simp [List.filter_cons, hb]
    · simp only [List.foldl_cons, hb, Bool.not_false, if_true]
      rw [ih]
      simp [List.filter_cons, hb]

/-- The bone-map keys accumulated by the bone loop: the incoming keys
followed by the names of the exportable bones, in stored order. -/
theorem armBones_go_keys (bs : List Bone) :
    ∀ (ws : List BoneWriter) (bm : List (String × Nat)),
      ((bs.foldl (fun wb b => if !is_exportable_bone b then wb else export_bone b wb.1 wb.2)
          (ws, bm)).2).map Prod.fst
        = bm.map Prod.fst ++ (bs.filter fun b => is_exportable_bone b).map Bone.name := by
  induction bs with
  | nil => intro ws bm; simp
  | cons b rest ih =>
    intro ws bm
    by_cases hb : is_exportable_bone b
    · simp only [List.foldl_cons, hb, Bool.not_true, Bool.false_eq_true, if_false]
      rw [show export_bone b ws bm
          = (ws ++ [(⟨b.name⟩ : BoneWriter)], bm ++ [(b.name, bm.length)]) from rfl]
      rw [ih]
      simp [List.filter_cons, hb]
    · simp only [List.foldl_cons, hb, Bool.not_false, if_true]
      rw [ih]
      simp [List.filter_cons, hb]

/-- C7 (confirmed): a bone with `is_exportable = false` is never handed to
the bone encoder (no BONES sub-chunk writer carries its name), never
entered into the name-to-index bone map, and never listed in any
PARTITIONS group, regardless of its pose-group membership.  Bone names are
unique within an armature (Blender invariant), stated as the `Nodup`
hypothesis. -/
theorem c7_unexportable_invisible (arm : Armature) (b : Bone)
    (hnames : (arm.bones.map Bone.name).Nodup)
    (hb : b ∈ arm.bones) (hexp : b.exportable = false) :
    b.name ∉ (armBones arm []).1.map BoneWriter.bname ∧
    b.name ∉ (armBones arm []).2.map Prod.fst ∧
    ∀ p ∈ nonEmptyGroups arm, b.name ∉ p.2 := by
  have hkey : b.name ∉ (arm.bones.filter fun x => is_exportable_bone x).map Bone.name := by
    intro hmem
    rcases List.mem_map.mp hmem with ⟨b', hb', hname⟩
    rcases List.mem_filter.mp hb' with ⟨hb'mem, hb'exp⟩
    have hbb : b' = b := List.inj_on_of_nodup_map hnames hb'mem hb hname
    rw [hbb] at hb'exp
    simp [is_exportable_bone, hexp] at hb'exp
  refine ⟨?_, ?_, ?_⟩
  · unfold armBones
    rw [armBones_go_writers]
    simpa [List.map_map, Function.comp] using hkey
  · unfold armBones
    rw [armBones_go_keys]
    simpa using hkey
  · intro p hp hmem
    rcases List.mem_map.mp (List.mem_filter.mp hp).1 with ⟨g, hg, hpe⟩
    rw [← hpe] at hmem
    rcases List.mem_map.mp hmem with ⟨b', hb', hname⟩
    exact hkey (List.mem_map.mpr
      ⟨b', List.mem_filter.mp (by simpa [exportableBones] using (List.mem_filter.mp hb').1)
        |>.1 |> fun h => List.mem_filter.mpr
          ⟨h, (List.mem_filter.mp (by simpa [exportableBones] using (List.mem_filter.mp hb').1)).2⟩,
       hname⟩)

/-- An armature with one non-exportable grouped bone `a` and one
exportable grouped bone `c`. -/
def armMixed : Armature :=
  ⟨3, [⟨"a", false, some 0⟩, ⟨"c", true, some 0⟩], [⟨0, "g"⟩]⟩

/-- C7 (witness): the theorem at `armMixed`: the non-exportable bone `a`
appears in no bone writer, no bone-map key and no partition group. -/
theorem c7_witness :
    "a" ∉ (armBones armMixed []).1.map BoneWriter.bname ∧
    "a" ∉ (armBones armMixed []).2.map Prod.fst ∧
    ∀ p ∈ nonEmptyGroups armMixed, "a" ∉ p.2 :=
  c7_unexportable_invisible armMixed ⟨"a", false, some 0⟩
    (by decide) (by decide) rfl

/-! ## C9 — the exported material set -/

/-- The materials one mesh contributes: non-null slot materials whose name
is in the mesh's used-material-name set. -/
def usedMats (md : MeshData) : List Material :=
  (md.materials.filterMap id).filter fun m => decide (m.name ∈ md.used_material_names)

mutual
/-- All used materials contributed along the (non-helper) walk of an
object, in walk order, duplicates included. -/
def rawUsed : BpyObj → List Material
  | .mk helper data _ _ _ kids =>
    if helper then []
    else
      (match data with
       | .mesh md => usedMats md
       | _ => []) ++ rawUsedL kids

/-- Collector `rawUsed` over a child list. -/
def rawUsedL : ObjList → List Material
  | .nil => []
  | .cons o rest => rawUsed o ++ rawUsedL rest
end

/-- Splitting a `pyFold` over an append. -/
theorem pyFold_append (key : α → Nat) (s l₁ l₂ : List α) :
    pyFold key s (l₁ ++ l₂) = pyFold key (pyFold key s l₁) l₂ :=
  List.foldl_append _ _ _ _

/-- Membership after a `pyInsert` comes from the set or the new element. -/
theorem mem_pyInsert {key : α → Nat} {s : List α} {x y : α}
    (h : y ∈ pyInsert key s x) : y ∈ s ∨ y = x := by
  unfold pyInsert at h
  split at h
  · exact .inl h
  · rcases List.mem_append.mp h with h | h
    · exact .inl h
    · exact .inr (List.mem_singleton.mp h)

/-- Insertion `pyInsert` keeps existing members. -/
theorem pyInsert_mem {key : α → Nat} {s : List α} (x : α) {y : α} (h : y ∈ s) :
    y ∈ pyInsert key s x := by
  unfold pyInsert
  split
  · exact h
  · exact List.mem_append_left _ h

/-- Membership after a `pyFold` comes from the set or the added list. -/
theorem mem_pyFold {key : α → Nat} (l : List α) :
    ∀ (s : List α) (y : α), y ∈ pyFold key s l → y ∈ s ∨ y ∈ l := by
  induction l with
  | nil => intro s y h; exact .inl h
  | cons a rest ih =>
    intro s y h
    rcases ih _ y h with h' | h'
    · rcases mem_pyInsert h' with h'' | h''
      · exact .inl h''
      · exact .inr (by rw [h'']; exact List.mem_cons_self a rest)
    · exact .inr (List.mem_cons_of_mem a h')

/-- Folding `pyFold` keeps existing members. -/
theorem pyFold_mem {key : α → Nat} (l : List α) :
    ∀ (s : List α) (y : α), y ∈ s → y ∈ pyFold key s l := by
  induction l with
  | nil => intro s y h; exact h
  | cons a rest ih => intro s y h; exact ih _ y (pyInsert_mem a h)

/-- Every added element is represented in the resulting set by an element
of the same identity. -/
theorem pyFold_key_cover {key : α → Nat} (l : List α) :
    ∀ (s : List α) (y : α), y ∈ l → ∃ x ∈ pyFold key s l, key x = key y := by
  induction l with
  | nil => intro s y h; cases h
  | cons a rest ih =>
    intro s y h
    rcases List.mem_cons.mp h with rfl | h'
    · show ∃ x ∈ pyFold key (pyInsert key s y) rest, key x = key y
      by_cases hc : s.any fun z => decide (key z = key y)
      · rcases List.any_eq_true.mp hc with ⟨z, hz, hkz⟩
        exact ⟨z, pyFold_mem rest _ z (pyInsert_mem y hz), of_decide_eq_true hkz⟩
      · refine ⟨y, pyFold_mem rest _ y ?_, rfl⟩
        unfold pyInsert
        rw [if_neg (by simpa using hc)]
        exact List.mem_append_right _ (List.mem_singleton.mpr rfl)
    · exact ih _ y h'

/-- Insertion `pyInsert` preserves key-distinctness. -/
theorem pyInsert_keys_nodup {key : α → Nat} {s : List α}
    (h : (s.map key).Nodup) (x : α) : ((pyInsert key s x).map key).Nodup := by
  unfold pyInsert
  split
  · exact h
  · rename_i hc
    rw [List.map_append, List.map_singleton, List.nodup_append]
    refine ⟨h, List.nodup_singleton _, ?_⟩
    intro k hk hk'
    rw [List.mem_singleton.mp hk'] at hk
    rcases List.mem_map.mp hk with ⟨z, hz, hkz⟩
    exact hc (List.any_eq_true.mpr ⟨z, hz, decide_eq_true hkz⟩)

/-- The set built by a `pyFold` has pairwise-distinct identities. -/
theorem pyFold_keys_nodup {key : α → Nat} (l : List α) :
    ∀ s : List α, (s.map key).Nodup → ((pyFold key s l).map key).Nodup := by
  induction l with
  | nil => intro s h; exact h
  | cons a rest ih => intro s h; exact ih _ (pyInsert_keys_nodup h a)

/-- The material loop equals a `pyFold` of the mesh's used materials. -/
theorem addUsedMaterials_eq (md : MeshData) :
    ∀ mats : List Material,
      addUsedMaterials mats md = pyFold Material.mid mats (usedMats md) := by
  rcases md with ⟨ms, names, enc⟩
  unfold addUsedMaterials usedMats
  induction ms with
  | nil => intro mats; rfl
  | cons om rest ih =>
    intro mats
    cases om with
    | none => simpa using ih mats
    | some m =>
      by_cases hm : m.name ∈ names
      · simp only [List.foldl_cons, List.filterMap_cons_some, id_eq,
          List.filter_cons, decide_eq_true hm, if_pos hm]
        rw [ih]
        simp [pyFold, hm]
      · simp only [List.foldl_cons, List.filterMap_cons_some, id_eq,
          List.filter_cons, if_neg hm]
        rw [ih]
        simp [hm]

mutual
/-- The materials collected by `scan_r` are the incoming set extended, in
walk order, by every used material the walk contributes. -/
theorem scan_r_materials (o : BpyObj) (st : ScanState) :
    (scan_r o st).materials = pyFold Material.mid st.materials (rawUsed o) := by
  match o with
  | .mk helper data mods x mw kids =>
    by_cases hh : helper
    · simp [scan_r, rawUsed, hh, pyFold]
    · cases data with
      | mesh md =>
          rw [show scan_r (.mk helper (.mesh md) mods x mw kids) st
              = scanKids kids
                  { st with
                    mesh_writers := st.mesh_writers ++ [md.encoded]
                    armatures := addModifierArms st.armatures mods
                    materials := addUsedMaterials st.materials md } from by
            simp [scan_r, hh]]
          rw [scanKids_materials kids _]
          rw [show rawUsed (.mk helper (.mesh md) mods x mw kids)
              = usedMats md ++ rawUsedL kids from by simp [rawUsed, hh]]
          rw [pyFold_append]
          rw [show ({ st with
                    mesh_writers := st.mesh_writers ++ [md.encoded]
                    armatures := addModifierArms st.armatures mods
                    materials := addUsedMaterials st.materials md } : ScanState).materials
              = addUsedMaterials st.materials md from rfl]
          rw [addUsedMaterials_eq]
      | armature a =>
          rw [show scan_r (.mk helper (.armature a) mods x mw kids) st
              = scanKids kids { st with armatures := pyInsert Armature.aid st.armatures a }
              from by simp [scan_r, hh]]
          rw [scanKids_materials kids _]
          rw [show rawUsed (.mk helper (.armature a) mods x mw kids)
              = [] ++ rawUsedL kids from by simp [rawUsed, hh]]
          rfl
      | other =>
          rw [show scan_r (.mk helper .other mods x mw kids) st
              = scanKids kids st from by simp [scan_r, hh]]
          rw [scanKids_materials kids st]
          rw [show rawUsed (.mk helper .other mods x mw kids)
              = [] ++ rawUsedL kids from by simp [rawUsed, hh]]
          rfl

/-- Analogue of `scan_r_materials` for a child list. -/
theorem scanKids_materials (l : ObjList) (st : ScanState) :
    (scanKids l st).materials = pyFold Material.mid st.materials (rawUsedL l) := by
  match l with
  | .nil => rfl
  | .cons o rest =>
      rw [show scanKids (.cons o rest) st = scanKids rest (scan_r o st) from rfl]
      rw [scanKids_materials rest _, scan_r_materials o st]
      rw [show rawUsedL (.cons o rest) = rawUsed o ++ rawUsedL rest from rfl]
      rw [pyFold_append]
end

/-- Two materials occurring in a scene have equal Python identities only
if they are the same object (identity coherence of a genuine snapshot). -/
def KeyCoherent (key : α → Nat) (l : List α) : Prop :=
  ∀ a ∈ l, ∀ b ∈ l, key a = key b → a = b

instance {key : α → Nat} {l : List α} [DecidableEq α] :
    Decidable (KeyCoherent key l) := by
  unfold KeyCoherent
  infer_instance

/-- C9 (confirmed): the material set handed to the SURFACES encoder holds
exactly the distinct (by identity) non-null materials whose name appears
in some collected mesh's used-material-name set — a material attached to a
slot but unused by faces is absent from `rawUsed` by construction — and
the u32 count written at the start of SURFACES equals, for every valid
enumeration, the number of distinct such materials. -/
theorem c9_surfaces_set (ctx : Context) (obj : BpyObj)
    (eA : List Armature → List Armature) (eM : List Material → List Material)
    (hM : ValidEnum eM) (hcoh : KeyCoherent Material.mid (rawUsed obj)) :
    (∀ m : Material, m ∈ (export_meshes eA obj).materials ↔ m ∈ rawUsed obj) ∧
    ((export_meshes eA obj).materials.map Material.mid).Nodup ∧
    (export_surfaces ctx (eM (export_meshes eA obj).materials)).data.head?
      = some (.u32 ((((rawUsed obj).map Material.mid).dedup.length) % 2 ^ 32)) := by
  have hmats : (export_meshes eA obj).materials
      = pyFold Material.mid [] (rawUsed obj) := scan_r_materials obj ⟨[], [], []⟩
  have hmem : ∀ m : Material, m ∈ (export_meshes eA obj).materials ↔ m ∈ rawUsed obj := by
    intro m
    rw [hmats]
    constructor
    · intro h
      rcases mem_pyFold (rawUsed obj) [] m h with h' | h'
      · cases h'
      · exact h'
    · intro h
      rcases pyFold_key_cover (rawUsed obj) [] m h with ⟨x, hx, hk⟩
      have hxr : x ∈ rawUsed obj := by
        rcases mem_pyFold (rawUsed obj) [] x hx with h' | h'
        · cases h'
        · exact h'
      rw [← hcoh x hxr m h hk]
      exact hx
  have hnodup : ((export_meshes eA obj).materials.map Material.mid).Nodup := by
    rw [hmats]
    exact pyFold_keys_nodup (rawUsed obj) [] (by simp)
  refine ⟨hmem, hnodup, ?_⟩
  have hlen : (eM (export_meshes eA obj).materials).length
      = (export_meshes eA obj).materials.length :=
    (hM _).length_eq
  have hperm : ((export_meshes eA obj).materials.map Material.mid).Perm
      (((rawUsed obj).map Material.mid).dedup) := by
    refine (List.perm_ext_iff_of_nodup hnodup (List.nodup_dedup _)).mpr fun k => ?_
    rw [List.mem_dedup]
    constructor
    · intro hk
      rcases List.mem_map.mp hk with ⟨m, hm, hkm⟩
      exact List.mem_map.mpr ⟨m, (hmem m).mp hm, hkm⟩
    · intro hk
      rcases List.mem_map.mp hk with ⟨m, hm, hkm⟩
      exact List.mem_map.mpr ⟨m, (hmem m).mpr hm, hkm⟩
  show some (pU32 (eM (export_meshes eA obj).materials).length) = _
  rw [hlen]
  rw [show (export_meshes eA obj).materials.length
      = ((export_meshes eA obj).materials.map Material.mid).length from
    (List.length_map _ _).symm]
  rw [hperm.length_eq]
  rfl

/-- A root MESH whose slots hold material `A` (used by faces) and a second
material `unused` that no face uses. -/
def objUnusedMat : BpyObj :=
  .mk false (.mesh ⟨[some matA, some ⟨9, "unused", none, none, [], 0⟩], ["A"], []⟩) []
    (some ⟨0, "", "", "", [], [], ⟨"", 0⟩⟩) Mat4.identity .nil

/-- C9 (witness): the theorem at a scene with one used and one unused slot
material: the set is `{A}` — membership, identity-distinctness and the
written count 1 all follow by applying the theorem. -/
theorem c9_witness :
    (∀ m : Material, m ∈ (export_meshes id objUnusedMat).materials ↔ m ∈ rawUsed objUnusedMat) ∧
    ((export_meshes id objUnusedMat).materials.map Material.mid).Nodup ∧
    (export_surfaces ctxTest (id (export_meshes id objUnusedMat).materials)).data.head?
      = some (.u32 ((((rawUsed objUnusedMat).map Material.mid).dedup.length) % 2 ^ 32)) :=
  c9_surfaces_set ctxTest objUnusedMat id id (fun l => List.Perm.refl l) (by decide)

end XRay
